import Mathlib

/-
  Verification development for `lib/unit.js` (the `Unit` denomination/conversion
  value type of the bitcore fork).

  Embedding conventions:
  * Finite JavaScript numbers are modeled as exact rationals (`ℚ`); all the
    spec-level statements about the module are phrased in exact decimal
    arithmetic.  `NaN`, which the program can produce (see below), is modeled
    explicitly by the `JSNum` carrier.
  * `x.toFixed(p)` followed by `parseInt`/`parseFloat` rounds to `p` decimal
    digits with ties away from zero (the ECMAScript `toFixed` algorithm takes
    the absolute value first and picks the larger candidate on ties); it is
    modeled by `roundTo`/`roundHalfAway` below.  `NaN.toFixed(p)` is the
    string `"NaN"`, which `parseInt`/`parseFloat` turn back into `NaN`.
  * The truthiness test `!UNITS[code]` consults the prototype chain: for the
    own keys of `Object.prototype` (`'toString'`, `'valueOf'`, ...) the member
    is an inherited truthy function/object, so the check passes even though
    the table has no such entry; the subsequent arithmetic on its `[0]`/`[1]`
    members (which are `undefined`) produces `NaN`.  This is modeled by
    `objectPrototypeKeys` and the `JSNum.nan` branches of `_from`/`toCode`.
  * The `errors` collaborator (`errors.Unit.UnknownCode`, `errors.Unit.InvalidRate`)
    and the `$.checkArgument` precondition helper are modeled by the
    `UnitError` inductive; a thrown error is an `Except.error`.
  * The overloaded second constructor argument (string code vs numeric rate,
    dispatched by `_.isNumber`) is modeled by the sum type `CodeOrRate`.
-/

namespace Bitcore

/-- Round half away from zero: models `Number.prototype.toFixed()` (0 digits)
applied to a finite value, as used by `Unit.prototype._from`. -/
def roundHalfAway (x : ℚ) : ℤ :=
  if 0 ≤ x then ⌊x + 1 / 2⌋ else -⌊-x + 1 / 2⌋

/-- Round to `p` decimal digits, ties away from zero: models
`parseFloat(value.toFixed(p))` on a finite value. -/
def roundTo (x : ℚ) (p : ℕ) : ℚ :=
  (roundHalfAway (x * 10 ^ p) : ℚ) / 10 ^ p

/-- The `UNITS` table of `lib/unit.js`, in source order:
code ↦ (scale factor, display precision). -/
def UNITS : List (String × ℕ × ℕ) :=
  [("HC", (100000000, 8)),
   ("mHC", (100000, 5)),
   ("uHC", (100, 2)),
   ("bits", (100, 2)),
   ("dbits", (100, 2)),
   ("atoms", (1, 0))]

/-- Own-key lookup in the `UNITS` object literal: the codes the table itself
defines, with their `[scaleFactor, displayPrecision]` arrays. -/
def lookupUnit (c : String) : Option (ℕ × ℕ) :=
  (UNITS.find? (fun e => e.1 = c)).map (fun e => e.2)

/-- The own property keys of `Object.prototype`, inherited by the `UNITS`
object literal through the prototype chain.  For these codes `UNITS[code]`
evaluates to a truthy inherited function/object although the table has no
such entry, so the `!UNITS[code]` checks in `Unit.prototype._from` and
`Unit.prototype.to` pass instead of throwing `UnknownCode`. -/
def objectPrototypeKeys : List String :=
  ["constructor", "hasOwnProperty", "isPrototypeOf", "propertyIsEnumerable",
   "toLocaleString", "toString", "valueOf", "__defineGetter__",
   "__defineSetter__", "__lookupGetter__", "__lookupSetter__", "__proto__"]

/-- A JavaScript number as this module produces it: a finite value (modeled
exactly as a rational) or `NaN`.  `NaN` arises when the arithmetic touches
the `undefined` member `[0]`/`[1]` of an inherited, non-array `UNITS`
member. -/
inductive JSNum where
  | num (q : ℚ)
  | nan
deriving DecidableEq

/-- `v * r` for a finite rate `r`: `NaN` propagates. -/
def JSNum.mulRat : JSNum → ℚ → JSNum
  | .num q, r => .num (q * r)
  | .nan, _ => .nan

/-- `v / s` for a table scale factor `s`.  `NaN` propagates; every scale
factor in `UNITS` is positive, so the zero-divisor case never occurs in the
program. -/
def JSNum.divNat : JSNum → ℕ → JSNum
  | .num q, s => .num (q / s)
  | .nan, _ => .nan

/-- `parseFloat(v.toFixed(p))`: finite values round to `p` digits,
`NaN.toFixed(p)` is `"NaN"` and parses back to `NaN`. -/
def JSNum.roundToN : JSNum → ℕ → JSNum
  | .num q, p => .num (roundTo q p)
  | .nan, _ => .nan

/-- Number-to-string coercion as used by `toString()`.  The program only
renders atomic projections, which are integers or `NaN`. -/
def JSNum.render : JSNum → String
  | .num q => toString q
  | .nan => "NaN"

/-- The errors raised by `lib/unit.js`: `errors.Unit.UnknownCode(code)`,
`errors.Unit.InvalidRate(rate)`, and the `$.checkArgument` failure used by
`Unit.fromObject`. -/
inductive UnitError where
  | unknownCode (c : String)
  | invalidRate (r : ℚ)
  | checkArgument (msg : String)
deriving DecidableEq

/-- The second constructor argument: a denomination code (string) or a fiat
exchange rate (number), dispatched in the source by `_.isNumber(code)`. -/
inductive CodeOrRate where
  | code (c : String)
  | rate (r : ℚ)
deriving DecidableEq

/-- A `Unit` instance: its single stored datum is `this._value`, the amount in
atomic units (a JavaScript number, so possibly `NaN`). -/
structure Unit where
  _value : JSNum
deriving DecidableEq

/-- `Unit.HC` static constant (`Unit[key] = key`). -/
def Unit.HC : String := "HC"

/-- `Unit.mHC` static constant. -/
def Unit.mHC : String := "mHC"

/-- `Unit.uHC` static constant. -/
def Unit.uHC : String := "uHC"

/-- `Unit.bits` static constant. -/
def Unit.bits : String := "bits"

/-- `Unit.dbits` static constant. -/
def Unit.dbits : String := "dbits"

/-- `Unit.atoms` static constant. -/
def Unit.atoms : String := "atoms"

/-- `Unit.prototype._from(amount, code)`:
`if (!UNITS[code]) throw UnknownCode(code); return parseInt((amount * UNITS[code][0]).toFixed())`.
The truthiness check passes for table keys (own properties, finite rounding)
and for inherited `Object.prototype` keys (`UNITS[code][0]` is `undefined`,
so the product, `toFixed` and `parseInt` all yield `NaN`). -/
def Unit._from (amount : ℚ) (code : String) : Except UnitError JSNum :=
  match lookupUnit code with
  | some t => .ok (.num ((roundHalfAway (amount * t.1) : ℤ) : ℚ))
  | none =>
      if objectPrototypeKeys.contains code then .ok .nan
      else .error (.unknownCode code)

/-- The `Unit(amount, code)` constructor: if `code` is a number it is a fiat
rate (`InvalidRate` when ≤ 0, otherwise `amount = amount / code; code = Unit.HC`),
then `this._value = this._from(amount, code)`. -/
def Unit.make (amount : ℚ) (code : CodeOrRate) : Except UnitError Unit :=
  match code with
  | .rate r =>
      if r ≤ 0 then .error (.invalidRate r)
      else (Unit._from (amount / r) Unit.HC).map Unit.mk
  | .code c => (Unit._from amount c).map Unit.mk

/-- The code path of `Unit.prototype.to`:
`value = this._value / UNITS[code][0]; return parseFloat(value.toFixed(UNITS[code][1]))`.
For a table key this is the rounded projection; for an inherited
`Object.prototype` key the division by `undefined` gives `NaN`, which
`toFixed`/`parseFloat` preserve. -/
def Unit.toCode (u : Unit) (code : String) : Except UnitError JSNum :=
  match lookupUnit code with
  | some t => .ok ((u._value.divNat t.1).roundToN t.2)
  | none =>
      if objectPrototypeKeys.contains code then .ok .nan
      else .error (.unknownCode code)

/-- `Unit.prototype.to(code)`: the numeric path multiplies the `HC` accessor
value (`this.HC`, i.e. `this.to('HC')`) by the rate and rounds to 2 digits;
the string path delegates to the member lookup. -/
def Unit.to (u : Unit) (code : CodeOrRate) : Except UnitError JSNum :=
  match code with
  | .rate r =>
      if r ≤ 0 then .error (.invalidRate r)
      else (u.toCode Unit.HC).map (fun hc => (hc.mulRat r).roundToN 2)
  | .code c => u.toCode c

/-- `Unit.fromHC(amount)`. -/
def Unit.fromHC (amount : ℚ) : Except UnitError Unit :=
  Unit.make amount (.code Unit.HC)

/-- `Unit.fromMillis(amount)` (alias `fromMilis`). -/
def Unit.fromMillis (amount : ℚ) : Except UnitError Unit :=
  Unit.make amount (.code Unit.mHC)

/-- `Unit.fromMilis` alias. -/
def Unit.fromMilis : ℚ → Except UnitError Unit := Unit.fromMillis

/-- `Unit.fromMicros(amount)` (alias `fromDbits`): note the source uses the
`dbits` code here. -/
def Unit.fromMicros (amount : ℚ) : Except UnitError Unit :=
  Unit.make amount (.code Unit.dbits)

/-- `Unit.fromDbits` alias. -/
def Unit.fromDbits : ℚ → Except UnitError Unit := Unit.fromMicros

/-- `Unit.fromAtoms(amount)`. -/
def Unit.fromAtoms (amount : ℚ) : Except UnitError Unit :=
  Unit.make amount (.code Unit.atoms)

/-- `Unit.fromFiat(amount, rate)`: `new Unit(amount, rate)` with a numeric rate. -/
def Unit.fromFiat (amount rate : ℚ) : Except UnitError Unit :=
  Unit.make amount (.rate rate)

/-- The argument of `Unit.fromObject`: either a keyed record with `amount` and
`code` fields, or any non-object value (rejected by `$.checkArgument(_.isObject(data))`). -/
inductive ObjectData where
  | record (amount : ℚ) (code : CodeOrRate)
  | nonRecord
deriving DecidableEq

/-- `Unit.fromObject(data)`: checks `_.isObject(data)` first, then
`new Unit(data.amount, data.code)`. -/
def Unit.fromObject : ObjectData → Except UnitError Unit
  | .record amount code => Unit.make amount code
  | .nonRecord => .error (.checkArgument "Argument is expected to be an object")

/-- `Unit.prototype.toHC()`. -/
def Unit.toHC (u : Unit) : Except UnitError JSNum := u.to (.code Unit.HC)

/-- `Unit.prototype.toMillis()` (alias `toMilis`). -/
def Unit.toMillis (u : Unit) : Except UnitError JSNum := u.to (.code Unit.mHC)

/-- `Unit.prototype.toMicros()` (alias `toDbits`): uses the `dbits` code. -/
def Unit.toMicros (u : Unit) : Except UnitError JSNum := u.to (.code Unit.dbits)

/-- `Unit.prototype.toAtoms()`. -/
def Unit.toAtoms (u : Unit) : Except UnitError JSNum := u.to (.code Unit.atoms)

/-- `Unit.prototype.atRate(rate)`: an alias of `this.to(rate)`. -/
def Unit.atRate (u : Unit) (rate : CodeOrRate) : Except UnitError JSNum := u.to rate

/-- `Unit.prototype.toString()`: `this.atoms + ' atoms'`, where `this.atoms`
is the generated accessor, i.e. `this.to('atoms')`. -/
def Unit.toStr (u : Unit) : Except UnitError String :=
  (u.to (.code Unit.atoms)).map (fun v => v.render ++ " atoms")

/-- The record returned by `Unit.prototype.toObject`. -/
structure UnitObject where
  amount : JSNum
  code : String
deriving DecidableEq

/-- `Unit.prototype.toObject()`: `{ amount: this.HC, code: Unit.HC }`, where
`this.HC` is the generated accessor, i.e. `this.to('HC')`. -/
def Unit.toObject (u : Unit) : Except UnitError UnitObject :=
  (u.to (.code Unit.HC)).map (fun a => UnitObject.mk a Unit.HC)

/-- `Unit.prototype.toJSON`: the same function object as `toObject`. -/
def Unit.toJSON : Unit → Except UnitError UnitObject := Unit.toObject

/-- `Unit.prototype.inspect()`: wraps `toString()`. -/
def Unit.inspect (u : Unit) : Except UnitError String :=
  (u.toStr).map (fun s => "<Unit: " ++ s ++ ">")

/-- The read operations of the `Unit` prototype (and the generated per-code
accessors), used to state the frame property: none of them assigns to
`this._value`. -/
inductive UnitOp where
  | toOp (c : CodeOrRate)
  | toHCOp
  | toMillisOp
  | toMicrosOp
  | toAtomsOp
  | atRateOp (c : CodeOrRate)
  | accessorOp (c : String)
  | toStrOp
  | toObjectOp
  | toJSONOp
  | inspectOp
deriving DecidableEq

/-- The value returned by one prototype operation. -/
inductive OpResult where
  | num (v : JSNum)
  | str (s : String)
  | obj (o : UnitObject)
deriving DecidableEq

/-- One prototype call as a state transformer: the returned `Unit` is the
receiver's state after the call.  Each method body only reads `this._value`
(no assignment occurs anywhere outside the constructor), so the state passes
through unchanged. -/
def Unit.applyOp (u : Unit) : UnitOp → (Except UnitError OpResult) × Unit
  | .toOp c => ((u.to c).map .num, u)
  | .toHCOp => ((u.toHC).map .num, u)
  | .toMillisOp => ((u.toMillis).map .num, u)
  | .toMicrosOp => ((u.toMicros).map .num, u)
  | .toAtomsOp => ((u.toAtoms).map .num, u)
  | .atRateOp c => ((u.atRate c).map .num, u)
  | .accessorOp c => ((u.to (.code c)).map .num, u)
  | .toStrOp => ((u.toStr).map .str, u)
  | .toObjectOp => ((u.toObject).map .obj, u)
  | .toJSONOp => ((u.toJSON).map .obj, u)
  | .inspectOp => ((u.inspect).map .str, u)

/-- Run a sequence of prototype calls, threading the receiver's state. -/
def Unit.runOps (u : Unit) (ops : List UnitOp) : Unit :=
  ops.foldl (fun s op => (s.applyOp op).2) u

/-- Adjacent-pairs strict decrease of a list of naturals. -/
def chainLt : List ℕ → Bool
  | a :: b :: t => decide (b < a) && chainLt (b :: t)
  | _ => true

/-- Adjacent-pairs weak decrease of a list of naturals. -/
def chainLe : List ℕ → Bool
  | a :: b :: t => decide (b ≤ a) && chainLe (b :: t)
  | _ => true

/-- The scale-factor column of `UNITS`, in table order (coarsest first). -/
def scaleColumn : List ℕ := UNITS.map (fun e => e.2.1)

/-- The display-precision column of `UNITS`, in table order (coarsest first). -/
def precisionColumn : List ℕ := UNITS.map (fun e => e.2.2)

/-! ### Basic lemmas about the rounding primitives and the table -/

theorem roundHalfAway_intCast (n : ℤ) : roundHalfAway (n : ℚ) = n := by
  unfold roundHalfAway
  split
  · rw [Int.floor_int_add]
    norm_num
  · rw [show (-(n : ℚ) + 1 / 2) = ((-n : ℤ) : ℚ) + 1 / 2 by push_cast; ring,
      Int.floor_int_add]
    norm_num

theorem roundHalfAway_eq {x : ℚ} {n : ℤ} (h : x = (n : ℚ)) : roundHalfAway x = n := by
  rw [h, roundHalfAway_intCast]

theorem roundTo_intCast_div (n : ℤ) (p : ℕ) :
    roundTo ((n : ℚ) / 10 ^ p) p = (n : ℚ) / 10 ^ p := by
  unfold roundTo
  have h10 : ((10 : ℚ) ^ p) ≠ 0 := by positivity
  rw [div_mul_cancel₀ _ h10, roundHalfAway_intCast]

theorem roundTo_zero (x : ℚ) : roundTo x 0 = (roundHalfAway x : ℚ) := by
  unfold roundTo
  norm_num

theorem lookupUnit_HC : lookupUnit "HC" = some (100000000, 8) := rfl

theorem lookupUnit_mHC : lookupUnit "mHC" = some (100000, 5) := rfl

theorem lookupUnit_uHC : lookupUnit "uHC" = some (100, 2) := rfl

theorem lookupUnit_bits : lookupUnit "bits" = some (100, 2) := rfl

theorem lookupUnit_dbits : lookupUnit "dbits" = some (100, 2) := rfl

theorem lookupUnit_atoms : lookupUnit "atoms" = some (1, 0) := rfl

theorem Unit.make_code_eq {amount : ℚ} {c : String} {s p : ℕ}
    (h : lookupUnit c = some (s, p)) :
    Unit.make amount (.code c) =
      .ok (Unit.mk (.num ((roundHalfAway (amount * s) : ℤ) : ℚ))) := by
  simp [Unit.make, Unit._from, h, Except.map]

theorem Unit.make_rate_eq {amount r : ℚ} (h : 0 < r) :
    Unit.make amount (.rate r) =
      .ok (Unit.mk (.num ((roundHalfAway (amount / r * 100000000) : ℤ) : ℚ))) := by
  have h' : ¬ r ≤ 0 := not_le.mpr h
  simp [Unit.make, Unit._from, Unit.HC, lookupUnit_HC, h', Except.map]

theorem Unit.make_value {amount : ℚ} {cr : CodeOrRate} {u : Unit}
    (h : Unit.make amount cr = .ok u) :
    (∃ k : ℤ, u._value = .num (k : ℚ)) ∨ u._value = .nan := by
  cases cr with
  | code c =>
      cases hl : lookupUnit c with
      | some t =>
          left
          refine ⟨roundHalfAway (amount * t.1), ?_⟩
          rw [Unit.make_code_eq hl] at h
          cases h
          rfl
      | none =>
          by_cases hp : c ∈ objectPrototypeKeys
          · right
            simp [Unit.make, Unit._from, hl, hp, Except.map] at h
            rw [← h]
          · simp [Unit.make, Unit._from, hl, hp, Except.map] at h
  | rate r =>
      by_cases hr : r ≤ 0
      · simp [Unit.make, hr] at h
      · left
        refine ⟨roundHalfAway (amount / r * 100000000), ?_⟩
        rw [Unit.make_rate_eq (not_le.mp hr)] at h
        cases h
        rfl

theorem Unit.toCode_atoms_int (k : ℤ) :
    (Unit.mk (.num (k : ℚ))).toCode "atoms" = .ok (.num (k : ℚ)) := by
  simp [Unit.toCode, lookupUnit_atoms, JSNum.divNat, JSNum.roundToN,
    roundTo_zero, roundHalfAway_intCast]

theorem Unit.toCode_atoms_nan : (Unit.mk .nan).toCode "atoms" = .ok .nan := rfl

/-! ### The claims -/

/-- C1: for every finite amount and known code, the constructor stores
`round(amount * scaleFactor(code))` (half away from zero) and `toAtoms`
returns exactly that integer; concretely `Unit.fromHC(1.3).toAtoms() == 130000000`
and `Unit.fromMicros(1.3).to('mHC') == 0.0013`. -/
theorem unit_c1 :
    (∀ (amount : ℚ) (c : String) (s p : ℕ), lookupUnit c = some (s, p) →
      ∃ u : Unit, Unit.make amount (.code c) = .ok u ∧
        u._value = .num ((roundHalfAway (amount * s) : ℤ) : ℚ) ∧
        u.toAtoms = .ok u._value)
    ∧ (Unit.fromHC (13 / 10)).bind Unit.toAtoms = .ok (.num 130000000)
    ∧ (Unit.fromMicros (13 / 10)).bind (fun u => u.to (.code "mHC")) =
        .ok (.num (13 / 10000)) := by
  refine ⟨?_, ?_, ?_⟩
  · intro amount c s p h
    refine ⟨_, Unit.make_code_eq h, rfl, ?_⟩
    simpa [Unit.toAtoms, Unit.to, Unit.atoms] using
      Unit.toCode_atoms_int (roundHalfAway (amount * s))
  · have h1 : (13 / 10 : ℚ) * ((100000000 : ℕ) : ℚ) = ((130000000 : ℤ) : ℚ) := by norm_num
    rw [Unit.fromHC]
    simp only [Unit.HC]
    rw [Unit.make_code_eq lookupUnit_HC, roundHalfAway_eq h1]
    simp only [Except.bind]
    have := Unit.toCode_atoms_int 130000000
    simp only [Unit.toAtoms, Unit.to, Unit.atoms, this]
    norm_num
  · have h2 : (13 / 10 : ℚ) * ((100 : ℕ) : ℚ) = ((130 : ℤ) : ℚ) := by norm_num
    rw [Unit.fromMicros]
    simp only [Unit.dbits]
    rw [Unit.make_code_eq lookupUnit_dbits, roundHalfAway_eq h2]
    simp only [Except.bind]
    simp only [Unit.to, Unit.toCode, lookupUnit_mHC, JSNum.divNat, JSNum.roundToN]
    have hcast : ((100000 : ℕ) : ℚ) = 10 ^ 5 := by norm_num
    rw [hcast, roundTo_intCast_div]
    norm_num

/-- C1 witness: the universal part applied at `amount = 1.3`, `code = "HC"`. -/
theorem unit_c1_witness :
    ∃ u : Unit, Unit.make (13 / 10) (.code "HC") = .ok u ∧
      u._value = JSNum.num ((roundHalfAway ((13 / 10 : ℚ) * ((100000000 : ℕ) : ℚ)) : ℤ) : ℚ) ∧
      u.toAtoms = .ok u._value :=
  unit_c1.1 (13 / 10) "HC" 100000000 8 lookupUnit_HC

/-- C2: `Unit.fromFiat(F, R).toHC()` equals `F / R` rounded half away from
zero to 8 decimal digits, for every `F` and every `R > 0`. -/
theorem unit_c2 (F R : ℚ) (hR : 0 < R) :
    (Unit.fromFiat F R).bind Unit.toHC = .ok (.num (roundTo (F / R) 8)) := by
  rw [Unit.fromFiat, Unit.make_rate_eq hR]
  simp only [Except.bind]
  simp only [Unit.toHC, Unit.to, Unit.toCode, Unit.HC, lookupUnit_HC,
    JSNum.divNat, JSNum.roundToN]
  have hcast : ((100000000 : ℕ) : ℚ) = 10 ^ 8 := by norm_num
  rw [hcast, roundTo_intCast_div]
  unfold roundTo
  norm_num

/-- C2 witness: `F = 1.3`, `R = 350`. -/
theorem unit_c2_witness :
    (Unit.fromFiat (13 / 10) 350).bind Unit.toHC =
      .ok (.num (roundTo ((13 / 10) / 350) 8)) :=
  unit_c2 (13 / 10) 350 (by norm_num)

/-- C3: for every constructed Unit `u`, `u.to('atoms')` returns exactly the
stored `atomicAmount`, whatever amount and denomination it was built from. -/
theorem unit_c3 (amount : ℚ) (cr : CodeOrRate) (u : Unit)
    (h : Unit.make amount cr = .ok u) :
    u.to (.code "atoms") = .ok u._value := by
  rcases Unit.make_value h with ⟨k, hk⟩ | hnan
  · have hu : u = Unit.mk (.num (k : ℚ)) := by cases u; simp_all
    rw [hu]
    simpa [Unit.to] using Unit.toCode_atoms_int k
  · have hu : u = Unit.mk .nan := by cases u; simp_all
    rw [hu]
    simpa [Unit.to] using Unit.toCode_atoms_nan

/-- C3 witness: the Unit built from `1.3 HC`. -/
theorem unit_c3_witness :
    (Unit.mk (.num ((130000000 : ℤ) : ℚ))).to (.code "atoms") =
      .ok ((Unit.mk (.num ((130000000 : ℤ) : ℚ)))._value) :=
  unit_c3 (13 / 10) (.code "HC") _ (by
    have h1 : (13 / 10 : ℚ) * ((100000000 : ℕ) : ℚ) = ((130000000 : ℤ) : ℚ) := by norm_num
    rw [Unit.make_code_eq lookupUnit_HC, roundHalfAway_eq h1])

/-- C4: for `r ≤ 0` the constructor, `to(r)` and `atRate(r)` all raise
`InvalidRate(r)`; for `r > 0` the constructor proceeds as
`Unit(amount / r, 'HC')` and never raises, and `to(r)` returns the base-unit
projection times `r` rounded to 2 decimal digits. -/
theorem unit_c4 :
    (∀ (amount r : ℚ), r ≤ 0 → Unit.make amount (.rate r) = .error (.invalidRate r))
    ∧ (∀ (u : Unit) (r : ℚ), r ≤ 0 →
        u.to (.rate r) = .error (.invalidRate r)
        ∧ u.atRate (.rate r) = .error (.invalidRate r))
    ∧ (∀ (amount r : ℚ), 0 < r →
        Unit.make amount (.rate r) = Unit.make (amount / r) (.code Unit.HC)
        ∧ ∃ v, Unit.make amount (.rate r) = .ok v)
    ∧ (∀ (u : Unit) (r : ℚ), 0 < r →
        ∃ b, u.toCode Unit.HC = .ok b
          ∧ u.to (.rate r) = .ok ((b.mulRat r).roundToN 2)
          ∧ u.atRate (.rate r) = .ok ((b.mulRat r).roundToN 2)) := by
  refine ⟨?_, ?_, ?_, ?_⟩
  · intro amount r hr
    simp [Unit.make, hr]
  · intro u r hr
    exact ⟨by simp [Unit.to, hr], by simp [Unit.atRate, Unit.to, hr]⟩
  · intro amount r hr
    have h' : ¬ r ≤ 0 := not_le.mpr hr
    exact ⟨by simp [Unit.make, h'], ⟨_, Unit.make_rate_eq hr⟩⟩
  · intro u r hr
    have h' : ¬ r ≤ 0 := not_le.mpr hr
    refine ⟨(u._value.divNat 100000000).roundToN 8, ?_, ?_, ?_⟩
    · simp [Unit.toCode, Unit.HC, lookupUnit_HC]
    · simp [Unit.to, h', Unit.toCode, Unit.HC, lookupUnit_HC, Except.map]
    · simp [Unit.atRate, Unit.to, h', Unit.toCode, Unit.HC, lookupUnit_HC, Except.map]

/-- C4 witness: rates `0`, `-5` and `2`. -/
theorem unit_c4_witness :
    Unit.make 1 (.rate 0) = .error (.invalidRate 0)
    ∧ Unit.make 1 (.rate (-5)) = .error (.invalidRate (-5))
    ∧ Unit.make 1 (.rate 2) = Unit.make (1 / 2) (.code Unit.HC) :=
  ⟨unit_c4.1 1 0 le_rfl, unit_c4.1 1 (-5) (by norm_num),
    (unit_c4.2.2.1 1 2 (by norm_num)).1⟩

/-- C5 counterexample: the code `'toString'` is not a key of the unit table,
yet neither the constructor nor `to` raises `UnknownCode` for it — the JS
truthiness check `!UNITS[code]` finds the inherited `Object.prototype.toString`
member, so the program proceeds and produces `NaN`. -/
theorem unit_c5_counterexample :
    lookupUnit "toString" = none
    ∧ Unit.make 1 (.code "toString") = .ok (Unit.mk .nan)
    ∧ Unit.make 1 (.code "toString") ≠ .error (.unknownCode "toString")
    ∧ (Unit.mk (.num 0)).to (.code "toString") = .ok .nan
    ∧ (Unit.mk (.num 0)).to (.code "toString") ≠ .error (.unknownCode "toString") := by
  refine ⟨rfl, rfl, ?_, rfl, ?_⟩
  · intro hcontra
    rw [show Unit.make 1 (.code "toString") = .ok (Unit.mk .nan) from rfl] at hcontra
    exact Except.noConfusion hcontra
  · intro hcontra
    rw [show (Unit.mk (.num 0)).to (.code "toString") = .ok JSNum.nan from rfl] at hcontra
    exact Except.noConfusion hcontra

/-- C5 (amended): for every string code that is neither a key of the unit
table nor an inherited `Object.prototype` property name, the constructor and
`to` raise `UnknownCode` carrying the code; for an inherited
`Object.prototype` name absent from the table the truthiness check passes and
the constructor instead succeeds with a `NaN` value (and `to` returns `NaN`);
`fromObject` on a non-record fails the argument precondition before any
construction. -/
theorem unit_c5 :
    (∀ (amount : ℚ) (c : String), lookupUnit c = none →
        c ∉ objectPrototypeKeys →
        Unit.make amount (.code c) = .error (.unknownCode c))
    ∧ (∀ (u : Unit) (c : String), lookupUnit c = none →
        c ∉ objectPrototypeKeys →
        u.to (.code c) = .error (.unknownCode c))
    ∧ (∀ (amount : ℚ) (c : String), lookupUnit c = none →
        c ∈ objectPrototypeKeys →
        Unit.make amount (.code c) = .ok (Unit.mk .nan))
    ∧ (∀ (u : Unit) (c : String), lookupUnit c = none →
        c ∈ objectPrototypeKeys →
        u.to (.code c) = .ok .nan)
    ∧ Unit.fromObject .nonRecord =
        .error (.checkArgument "Argument is expected to be an object") := by
  refine ⟨?_, ?_, ?_, ?_, rfl⟩
  · intro amount c h hp
    simp [Unit.make, Unit._from, h, hp, Except.map]
  · intro u c h hp
    simp [Unit.to, Unit.toCode, h, hp]
  · intro amount c h hp
    simp [Unit.make, Unit._from, h, hp, Except.map]
  · intro u c h hp
    simp [Unit.to, Unit.toCode, h, hp]

/-- C5 witness: the genuinely unknown code `"XYZ"` raises, the inherited name
`"toString"` does not. -/
theorem unit_c5_witness :
    Unit.make 1 (.code "XYZ") = .error (.unknownCode "XYZ")
    ∧ (Unit.mk (.num 0)).to (.code "XYZ") = .error (.unknownCode "XYZ")
    ∧ Unit.make 1 (.code "toString") = .ok (Unit.mk .nan) :=
  ⟨unit_c5.1 1 "XYZ" rfl (by decide), unit_c5.2.1 (Unit.mk (.num 0)) "XYZ" rfl (by decide),
    unit_c5.2.2.1 1 "toString" rfl (by decide)⟩

/-- C6: `toObject` (and the JSON hook, the same function) always returns
`{ amount: to('HC') value, code: 'HC' }`: the construction-time denomination
is never preserved. -/
theorem unit_c6 (u : Unit) :
    (∃ a, u.to (.code Unit.HC) = .ok a ∧ u.toObject = .ok (UnitObject.mk a Unit.HC))
    ∧ u.toJSON = u.toObject := by
  refine ⟨⟨(u._value.divNat 100000000).roundToN 8, ?_, ?_⟩, rfl⟩
  · simp [Unit.to, Unit.toCode, Unit.HC, lookupUnit_HC]
  · simp [Unit.toObject, Unit.to, Unit.toCode, Unit.HC, lookupUnit_HC, Except.map]

/-- C7: every Unit produced by a constructor or factory whose inputs satisfy
the stated preconditions — a code that is a key of the unit table, or a
positive rate — stores an integer `_value`: fractional atomic amounts are
impossible by construction. -/
theorem unit_c7 :
    (∀ (amount : ℚ) (c : String) (s p : ℕ) (u : Unit), lookupUnit c = some (s, p) →
        Unit.make amount (.code c) = .ok u → ∃ k : ℤ, u._value = .num (k : ℚ))
    ∧ (∀ (amount r : ℚ) (u : Unit), 0 < r →
        Unit.make amount (.rate r) = .ok u → ∃ k : ℤ, u._value = .num (k : ℚ))
    ∧ (∀ (amount : ℚ) (c : String) (s p : ℕ) (u : Unit), lookupUnit c = some (s, p) →
        Unit.fromObject (.record amount (.code c)) = .ok u → ∃ k : ℤ, u._value = .num (k : ℚ))
    ∧ (∀ (amount r : ℚ) (u : Unit), 0 < r →
        Unit.fromObject (.record amount (.rate r)) = .ok u → ∃ k : ℤ, u._value = .num (k : ℚ)) := by
  refine ⟨?_, ?_, ?_, ?_⟩
  · intro amount c s p u hl h
    rw [Unit.make_code_eq hl] at h
    cases h
    exact ⟨_, rfl⟩
  · intro amount r u hr h
    rw [Unit.make_rate_eq hr] at h
    cases h
    exact ⟨_, rfl⟩
  · intro amount c s p u hl h
    rw [Unit.fromObject, Unit.make_code_eq hl] at h
    cases h
    exact ⟨_, rfl⟩
  · intro amount r u hr h
    rw [Unit.fromObject, Unit.make_rate_eq hr] at h
    cases h
    exact ⟨_, rfl⟩

/-- C7 witness: the Unit built from `1.3 HC` stores the integer `130000000`. -/
theorem unit_c7_witness :
    ∃ k : ℤ, (Unit.mk (.num ((130000000 : ℤ) : ℚ)))._value = .num (k : ℚ) :=
  unit_c7.1 (13 / 10) "HC" 100000000 8 _ lookupUnit_HC (by
    have h1 : (13 / 10 : ℚ) * ((100000000 : ℕ) : ℚ) = ((130000000 : ℤ) : ℚ) := by norm_num
    rw [Unit.make_code_eq lookupUnit_HC, roundHalfAway_eq h1])

/-- C8: no sequence of conversion/serialization calls changes the stored
`_value`: conversions are derive-only and never re-store a rounded
projection. -/
theorem unit_c8 (u : Unit) (ops : List UnitOp) :
    (Unit.runOps u ops)._value = u._value := by
  induction ops generalizing u with
  | nil => rfl
  | cons op t ih =>
      have hop : (u.applyOp op).2 = u := by cases op <;> rfl
      show (Unit.runOps (u.applyOp op).2 t)._value = u._value
      rw [hop]
      exact ih u

/-- C9 counterexample: the table's scale factors are NOT strictly decreasing
across the entries — `uHC`, `bits` and `dbits` all share scale factor 100
(and display precision 2). -/
theorem unit_c9_counterexample :
    ¬ (chainLt scaleColumn = true ∧ chainLt precisionColumn = true
        ∧ lookupUnit "atoms" = some (1, 0)) := by
  decide

/-- C9 (amended): the scale factors and display precisions are non-increasing
in table order from coarsest to finest (with ties among `uHC`/`bits`/`dbits`),
and the atomic entry has scale factor 1 and precision 0. -/
theorem unit_c9 :
    chainLe scaleColumn = true ∧ chainLe precisionColumn = true
      ∧ lookupUnit "atoms" = some (1, 0) := by
  decide

/-- C10: `to('uHC')`, `to('bits')` and `to('dbits')` agree on every Unit
(shared scale 100 and precision 2), and the code `'uHC'` is accepted by the
constructor and by `to`. -/
theorem unit_c10 :
    (∀ u : Unit, u.to (.code "uHC") = u.to (.code "bits")
        ∧ u.to (.code "bits") = u.to (.code "dbits"))
    ∧ lookupUnit "uHC" = some (100, 2)
    ∧ (∀ amount : ℚ, ∃ u, Unit.make amount (.code "uHC") = .ok u)
    ∧ (∀ u : Unit, ∃ v, u.to (.code "uHC") = .ok v) := by
  refine ⟨?_, rfl, ?_, ?_⟩
  · intro u
    constructor <;>
      simp [Unit.to, Unit.toCode, lookupUnit_uHC, lookupUnit_bits, lookupUnit_dbits]
  · intro amount
    exact ⟨_, Unit.make_code_eq lookupUnit_uHC⟩
  · intro u
    refine ⟨(u._value.divNat 100).roundToN 2, ?_⟩
    simp [Unit.to, Unit.toCode, lookupUnit_uHC]

end Bitcore
